import Mathlib

/-!
Verification of the landez tile-reader module (`landez/reader.py`).

The Python source is shallowly embedded: SQLite tables become lists of row
structures queried in table order, Python `dict`s become association lists
with replace-in-place update, machine integers are `Int`/`Nat` (Python has
arbitrary-precision integers, so no wrap-around is modelled), exceptions
become `Except` results, and file sinks become an explicit `Sink` state.
External collaborators (the `proj` projection module, `urllib`, `zlib`,
`json`, `pkg_resources.parse_version`) are modelled at their interface
boundary, as the module consumes them.
-/

/-- JSON values, as produced by Python's `json.loads` (external library):
`null`, booleans, numbers (restricted to integers here; the grid claims only
involve integer fragments), strings, arrays and objects.  Objects keep their
fields as an ordered association list, matching the embedding of `dict`. -/
inductive Json where
  | null : Json
  | bool (b : Bool) : Json
  | num (n : Int) : Json
  | str (s : String) : Json
  | arr (xs : List Json) : Json
  | obj (fields : List (String × Json)) : Json

/-- Python `dict` assignment `d[k] = v` on an association list: replace the
first binding of `k` in place, or append a new binding at the end. -/
def dictSet {β : Type} : List (String × β) → String → β → List (String × β)
  | [], k, v => [(k, v)]
  | (k', v') :: rest, k, v =>
      if k' = k then (k, v) :: rest else (k', v') :: dictSet rest k v

/-- Python `dict` lookup `d[k]` / `d.get(k)` on an association list. -/
def dictGet {β : Type} : List (String × β) → String → Option β
  | [], _ => none
  | (k', v') :: rest, k => if k' = k then some v' else dictGet rest k

/-- Escaping of string contents inside a JSON string literal, as done by
Python's `json.dumps` (external library) for the characters that require it
in the claims' scope: backslash and double quote. -/
def jsonEscape (s : String) : String :=
  s.data.foldl
    (fun acc c =>
      acc ++ (if c = '\\' then "\\\\" else if c = '"' then "\\\"" else String.singleton c))
    ""

mutual

/-- Serialization of a JSON value, modelling Python 2's `json.dumps` with its
default separators `", "` and `": "` (external library).  Objects are emitted
in association-list order (the embedding's fixed stand-in for `dict`
iteration order). -/
def dumps : Json → String
  | Json.null => "null"
  | Json.bool true => "true"
  | Json.bool false => "false"
  | Json.num n => toString n
  | Json.str s => "\"" ++ jsonEscape s ++ "\""
  | Json.arr xs => "[" ++ dumpsArr xs ++ "]"
  | Json.obj fs => "\x7b" ++ dumpsObj fs ++ "\x7d"

/-- Comma-separated serialization of the elements of a JSON array. -/
def dumpsArr : List Json → String
  | [] => ""
  | [x] => dumps x
  | x :: y :: rest => dumps x ++ ", " ++ dumpsArr (y :: rest)

/-- Comma-separated serialization of the fields of a JSON object. -/
def dumpsObj : List (String × Json) → String
  | [] => ""
  | [(k, v)] => "\"" ++ jsonEscape k ++ "\": " ++ dumps v
  | (k, v) :: p :: rest =>
      "\"" ++ jsonEscape k ++ "\": " ++ dumps v ++ ", " ++ dumpsObj (p :: rest)

end

/-- A row of the `tiles` table of an MBTiles archive:
`tiles(zoom_level, tile_column, tile_row, tile_data)`.  The blob
`tile_data` is kept as an opaque string of bytes. -/
structure TileRow where
  zoom_level : Nat
  tile_column : Int
  tile_row : Int
  tile_data : String

/-- A row of the `grids` table: `grids(zoom_level, tile_column, tile_row,
grid)` where `grid` is a zlib-compressed JSON object.  Decompression and
parsing (`json.loads(zlib.decompress(...))`, external libraries) are
modelled by storing the parsed object's fields directly. -/
structure GridRow where
  zoom_level : Nat
  tile_column : Int
  tile_row : Int
  grid : List (String × Json)

/-- A row of the `grid_data` table: `grid_data(zoom_level, tile_column,
tile_row, key_name, key_json)`.  `key_json` is stored parsed (the source
applies `json.loads` to it when assembling the grid). -/
structure GridDataRow where
  zoom_level : Nat
  tile_column : Int
  tile_row : Int
  key_name : String
  key_json : Json

/-- The logical content of an MBTiles archive file, i.e. the tables the
reader queries.  Rows are kept in table order; SQL queries without an
`ORDER BY` return rows in that order in this model. -/
structure MBTiles where
  tiles : List TileRow
  grids : List GridRow
  grid_data : List GridDataRow

/-- The row conversion `y_mercator = (2**int(z) - 1) - int(y)` performed by
`MBTilesReader.tile` and `MBTilesReader.grid` before querying the archive
(requested XYZ row to stored TMS row). -/
def y_mercator (z : Nat) (y : Int) : Int :=
  (2 ^ z - 1 : Int) - y

/-- The query `SELECT tile_data FROM tiles WHERE zoom_level=? AND
tile_column=? AND tile_row=?` followed by `fetchone()`: the first matching
row's blob, if any. -/
def lookupTiles (db : MBTiles) (z : Nat) (x row : Int) : Option String :=
  (db.tiles.find? fun r =>
    r.zoom_level == z && r.tile_column == x && r.tile_row == row).map
    (fun r => r.tile_data)

/-- The query `SELECT grid FROM grids WHERE zoom_level=? AND tile_column=?
AND tile_row=?` followed by `fetchone()`. -/
def lookupGrids (db : MBTiles) (z : Nat) (x row : Int) : Option (List (String × Json)) :=
  (db.grids.find? fun r =>
    r.zoom_level == z && r.tile_column == x && r.tile_row == row).map
    (fun r => r.grid)

/-- The query `SELECT key_name, key_json FROM grid_data WHERE zoom_level=?
AND tile_column=? AND tile_row=?`, fetched row by row: all matching
`(key_name, key_json)` pairs in table order. -/
def gridDataRows (db : MBTiles) (z : Nat) (x row : Int) : List (String × Json) :=
  (db.grid_data.filter fun r =>
    r.zoom_level == z && r.tile_column == x && r.tile_row == row).map
    (fun r => (r.key_name, r.key_json))

/-- Errors raised by the module.  `typeError` stands for a Python
`TypeError` escaping from the code itself (not one of the module's own
exception classes). -/
inductive DownloadKind where
  | exhausted : DownloadKind
  | unknownKeyword (name : String) : DownloadKind
deriving DecidableEq

/-- The exception actually observed by a caller of the reader module. -/
inductive PyError where
  | extraction : PyError
  | invalidFormat : PyError
  | download (k : DownloadKind) : PyError
  | typeError : PyError
deriving DecidableEq

/-- The state of an output sink (the `output` file path handed to
`tile`): either never opened, or opened-and-written with the given content
(`Sink.written ""` is a file truncated by `open(output, 'wb')` and left
empty). -/
inductive Sink where
  | untouched : Sink
  | written (content : String) : Sink
deriving DecidableEq

/-- `MBTilesReader.tile(z, x, y, output)`: convert the requested row with
`y_mercator`, fetch the blob at the exact `(z, x, y_mercator)` key; if no
row is found raise `ExtractionError` (before the sink is ever opened),
otherwise open the sink and write the blob verbatim. -/
def MBTilesReader_tile (db : MBTiles) (z : Nat) (x y : Int) :
    Except PyError Unit × Sink :=
  match lookupTiles db z x (y_mercator z y) with
  | none => (Except.error PyError.extraction, Sink.untouched)
  | some t => (Except.ok (), Sink.written t)

/-- The callback-name defaulting at the top of `MBTilesReader.grid`:
`if not callback: callback = 'grid'` (Python treats both `None` and the
empty string as falsy). -/
def cbName : Option String → String
  | none => "grid"
  | some c => if c = "" then "grid" else c

/-- The reassembly loop of `MBTilesReader.grid`: starting from
`grid_json['data'] = {}`, insert each fetched `grid_data` row as
`grid_json['data'][key_name] = json.loads(key_json)` in fetch order. -/
def assembleData (rows : List (String × Json)) : List (String × Json) :=
  rows.foldl (fun acc kv => dictSet acc kv.1 kv.2) []

/-- `MBTilesReader.grid(z, x, y, callback)`: convert the row, fetch the
`grids` record at the exact converted key (missing raises
`ExtractionError`), reassemble the `data` map from the matching
`grid_data` rows, and return the JSONP-style string
`callback(dumped-json);`. -/
def MBTilesReader_grid (db : MBTiles) (z : Nat) (x y : Int)
    (callback : Option String) : Except PyError String :=
  let cb := cbName callback
  let ym := y_mercator z y
  match lookupGrids db z x ym with
  | none => Except.error PyError.extraction
  | some g =>
      let data := assembleData (gridDataRows db z x ym)
      let doc := dictSet g "data" (Json.obj data)
      Except.ok (cb ++ "(" ++ dumps (Json.obj doc) ++ ");")

/-- The ordering of the query `SELECT tile_column, tile_row FROM tiles
WHERE zoom_level=? ORDER BY tile_column, tile_row`: ascending by column,
ties broken ascending by row. -/
def pairLE (a b : Int × Int) : Prop :=
  a.1 < b.1 ∨ (a.1 = b.1 ∧ a.2 ≤ b.2)

instance pairLE.decRel : DecidableRel pairLE := fun a b => by
  unfold pairLE; infer_instance

instance pairLE.isTotal : IsTotal (Int × Int) pairLE where
  total a b := by unfold pairLE; omega

instance pairLE.isTrans : IsTrans (Int × Int) pairLE where
  trans a b c hab hbc := by unfold pairLE at *; omega

/-- The unsorted `(tile_column, tile_row)` pairs stored at a zoom level, in
table order. -/
def pairsAtZoom (db : MBTiles) (zoom : Nat) : List (Int × Int) :=
  (db.tiles.filter fun r => r.zoom_level == zoom).map
    (fun r => (r.tile_column, r.tile_row))

/-- The result rows of the coverage query, with the `ORDER BY tile_column,
tile_row` applied (modelled by a stable sort under `pairLE`). -/
def coveragePairs (db : MBTiles) (zoom : Nat) : List (Int × Int) :=
  List.insertionSort pairLE (pairsAtZoom db zoom)

/-- The fetch loop of `MBTilesReader.find_coverage`:
`while t and t[0] - previous[0] <= 1: previous = t; t = rows.fetchone()`.
`previous` is the last pair accepted into the run; the list argument holds
the current `t` (if any) followed by the rows not yet fetched. -/
def scanRun : (Int × Int) → List (Int × Int) → Int × Int
  | previous, [] => previous
  | previous, t :: rest =>
      if t.1 - previous.1 ≤ 1 then scanRun t rest else previous

/-- `MBTilesReader.find_coverage(zoom)`: fetch the sorted pairs; the first
`fetchone()` seeds `xmin, ymin = t` — when no row exists `t` is `None` and
the tuple unpacking raises a Python `TypeError`.  Otherwise scan the run,
take `xmax, ymax` from `previous`, and return
`proj.unproject_pixels((xmin*S, (ymax+1)*S), zoom) +
proj.unproject_pixels(((xmax+1)*S, ymin*S), zoom)`.  The projection
`GoogleProjection(S, [zoom]).unproject_pixels` is external (`proj` module);
it is passed in as the abstract pixel-to-geographic conversion `unproject`,
already applied to the zoom, returning the 2-element coordinate tuple as a
list so that `+` is list concatenation as in the source. -/
def MBTilesReader_find_coverage {α : Type} (db : MBTiles) (zoom : Nat)
    (S : Int) (unproject : Int → Int → List α) : Except PyError (List α) :=
  match coveragePairs db zoom with
  | [] => Except.error PyError.typeError
  | t :: rest =>
      let xmin := t.1
      let ymin := t.2
      let last := scanRun t (t :: rest)
      let xmax := last.1
      let ymax := last.2
      Except.ok (unproject (xmin * S) ((ymax + 1) * S) ++
                 unproject ((xmax + 1) * S) (ymin * S))

/-- A parsed URL template, as consumed by Python's `str.format`: literal
segments interleaved with named replacement fields (`\x7bz\x7d`,
`\x7bx\x7d`, ...). -/
inductive Segment where
  | lit (s : String) : Segment
  | hole (name : String) : Segment
deriving DecidableEq

/-- Python's `template.format(**env)` (string library) on a parsed
template: substitute each named field from `env`, raising `KeyError` with
the first missing name (fields are resolved left to right). -/
def pyFormat (env : List (String × String)) : List Segment → Except String String
  | [] => Except.ok ""
  | Segment.lit t :: rest =>
      match pyFormat env rest with
      | Except.error k => Except.error k
      | Except.ok u => Except.ok (t ++ u)
  | Segment.hole n :: rest =>
      match dictGet env n with
      | none => Except.error n
      | some v =>
          match pyFormat env rest with
          | Except.error k => Except.error k
          | Except.ok u => Except.ok (v ++ u)

/-- The keyword environment `locals()` at the `format` call inside
`TileDownloader.tile(self, z, x, y, output)`: by that point the local
scope holds `self`, the three coordinates, `output`, `size = self.tilesize`
and the computed subdomain
`s = self.tiles_subdomains[(x + y) % len(self.tiles_subdomains)]`.
`selfRepr` stands for the string Python would substitute for
`\x7bself\x7d`.  The source indexes the subdomain list directly, so it
assumes a non-empty subdomain list; the model totalises the list access
with `getD`. -/
def tileLocals (tiles_subdomains : List String) (tilesize : Int)
    (selfRepr output : String) (z x y : Int) : List (String × String) :=
  let s := tiles_subdomains.getD
    ((x + y) % (tiles_subdomains.length : Int)).toNat ""
  [("self", selfRepr), ("z", toString z), ("x", toString x),
   ("y", toString y), ("output", output), ("size", toString tilesize),
   ("s", s)]

/-- The retry loop of `TileDownloader.tile`: `r = DOWNLOAD_RETRIES; while
r > 0: try: retrieve; return / except IOError: r -= 1`.  The transfer
(`urllib.URLopener().retrieve`, external) is modelled by the oracle
`attempt`: `attempt i` is the outcome of the `i`-th transfer attempt
(`some content` on success, `none` on an `IOError`).  Arguments: remaining
budget `r`, next attempt index `i`. -/
def downloadAttempt (attempt : Nat → Option String) : Nat → Nat → Option String
  | 0, _ => none
  | r + 1, i =>
      match attempt i with
      | some b => some b
      | none => downloadAttempt attempt r (i + 1)

/-- The number of transfer attempts the retry loop performs, with the same
arguments as `downloadAttempt`. -/
def attemptsMade (attempt : Nat → Option String) : Nat → Nat → Nat
  | 0, _ => 0
  | r + 1, i =>
      match attempt i with
      | some _ => 1
      | none => 1 + attemptsMade attempt r (i + 1)

/-- `TileDownloader.tile(z, x, y, output)`: resolve the URL template
against `locals()` — a `KeyError` from `format` becomes
`DownloadError("Unknown keyword ...")` before any transfer is attempted —
then run the bounded retry loop; exhaustion raises a bare `DownloadError`.
`R` is the externally configured `DOWNLOAD_RETRIES` budget and `attempt`
the transfer oracle.  On success the retrieved content (written to
`output` by the external `retrieve`) is returned. -/
def TileDownloader_tile (tiles_url : List Segment)
    (tiles_subdomains : List String) (tilesize : Int) (R : Nat)
    (attempt : Nat → Option String) (selfRepr output : String)
    (z x y : Int) : Except PyError String :=
  match pyFormat (tileLocals tiles_subdomains tilesize selfRepr output z x y)
      tiles_url with
  | Except.error k => Except.error (PyError.download (DownloadKind.unknownKeyword k))
  | Except.ok _url =>
      match downloadAttempt attempt R 0 with
      | some b => Except.ok b
      | none => Except.error (PyError.download DownloadKind.exhausted)

/-- Modelled from the spec: the coordinate-reference identifier constant
`GoogleProjection.NAME` of the external `proj` module (the projector is out
of scope; only the constant is consumed, as the value of the `srs`/`crs`
parameter). -/
def GoogleProjection_NAME : String := "EPSG:900913"

/-- Splitting of a character list on the dot separator, accumulating the
current (reversed) component. -/
def splitDots : List Char → List Char → List (List Char)
  | [], acc => [acc.reverse]
  | c :: rest, acc =>
      if c = '.' then acc.reverse :: splitDots rest []
      else splitDots rest (c :: acc)

/-- The numeric value of one version component (a digit sequence). -/
def compToNat (cs : List Char) : Nat :=
  cs.foldl (fun n c => n * 10 + (c.toNat - 48)) 0

/-- The numeric components of a dotted version string, for
`pkg_resources.parse_version` (external library) restricted to the dotted
numeric versions WMS uses. -/
def parseVer (s : String) : List Nat :=
  (splitDots s.data []).map compToNat

/-- Lexicographic strict comparison of version component lists. -/
def verCompLT : List Nat → List Nat → Bool
  | [], [] => false
  | [], _ :: _ => true
  | _ :: _, [] => false
  | a :: as, b :: bs =>
      if a < b then true else if b < a then false else verCompLT as bs

/-- The test `parse_version(version) >= parse_version('1.3')` of
`WMSReader.__init__`. -/
def verGE13 (v : String) : Bool :=
  ! verCompLT (parseVer v) [1, 3]

/-- `WMSReader.__init__`: build the default `GetMap` parameter dict (Python
values stringified: `False` prints as `"False"`, the sizes via `str`),
apply the caller's keyword overrides with `dict.update`, then set the
version-dependent spatial-reference key (`crs` for effective version
`>= 1.3`, else `srs`) to `GoogleProjection.NAME`, overwriting any override
at that key. -/
def WMSReader_init (layers : List String) (tilesize : Int)
    (kwargs : List (String × String)) : List (String × String) :=
  let defaults : List (String × String) :=
    [("service", "WMS"), ("request", "GetMap"), ("version", "1.1.1"),
     ("styles", ""), ("format", "image/jpeg"), ("transparent", "False"),
     ("layers", String.intercalate "," layers),
     ("width", toString tilesize), ("height", toString tilesize)]
  let p := kwargs.foldl (fun acc kv => dictSet acc kv.1 kv.2) defaults
  let projectionKey :=
    if verGE13 ((dictGet p "version").getD "") then "crs" else "srs"
  dictSet p projectionKey GoogleProjection_NAME

/-- `WMSReader.tile(z, x, y, output)`, from the point where the request is
issued (bbox computation and URL encoding feed only into the request URL,
which the external `urllib.urlopen` consumes; the HTTP exchange is
modelled by `resp`).  `resp` is either a transport failure (`IOError` from
`urlopen`) or a pair of the response's declared content type and its body
read — the body read itself may fail with an `IOError`.  The source
asserts `header == wmsParams['format']` before opening the sink; on a
match it runs `open(output, 'wb')` (truncating the sink) and only then
evaluates `f.read()`, so a body-read failure leaves the sink truncated
empty.  `AssertionError` and `IOError` are both converted to
`ExtractionError`. -/
def WMSReader_tile (wmsParams : List (String × String))
    (resp : Except Unit (String × Except Unit String)) :
    Except PyError Unit × Sink :=
  match resp with
  | Except.error _ => (Except.error PyError.extraction, Sink.untouched)
  | Except.ok (header, body) =>
      if header = (dictGet wmsParams "format").getD "" then
        match body with
        | Except.error _ => (Except.error PyError.extraction, Sink.written "")
        | Except.ok content => (Except.ok (), Sink.written content)
      else (Except.error PyError.extraction, Sink.untouched)

/-- Example archive: one tile stored at `(zoom 1, column 0, stored row 1)`. -/
def roundDb : MBTiles :=
  { tiles := [⟨1, 0, 1, "BLOB"⟩], grids := [], grid_data := [] }

/-- Example archive: a `grids` header (with no `data` field) and two
`grid_data` fragments with distinct keys at `(1, 0, stored row 1)`. -/
def gridDb : MBTiles :=
  { tiles := [],
    grids := [⟨1, 0, 1, [("keys", Json.arr [Json.str "a"])]⟩],
    grid_data := [⟨1, 0, 1, "a", Json.num 1⟩, ⟨1, 0, 1, "b", Json.num 2⟩] }

/-- Example archive: two `grid_data` fragments sharing the key `"a"` at the
same coordinate as a `grids` header. -/
def dupGridDb : MBTiles :=
  { tiles := [],
    grids := [⟨1, 0, 1, []⟩],
    grid_data := [⟨1, 0, 1, "a", Json.num 1⟩, ⟨1, 0, 1, "a", Json.num 2⟩] }

/-- Example archive: a `grid_data` fragment at `(1, 0, 1)` but no `grids`
row anywhere. -/
def noHeaderDb : MBTiles :=
  { tiles := [],
    grids := [],
    grid_data := [⟨1, 0, 1, "a", Json.num 1⟩] }

/-- Example archive: tiles at zoom 1 with `(column, row)` pairs
`(0,0)`, `(1,0)`, `(1,1)`. -/
def covDb : MBTiles :=
  { tiles := [⟨1, 0, 0, "t00"⟩, ⟨1, 1, 0, "t10"⟩, ⟨1, 1, 1, "t11"⟩],
    grids := [], grid_data := [] }

/-- Example archive with no tiles at all. -/
def emptyDb : MBTiles := { tiles := [], grids := [], grid_data := [] }

/-- A standard XYZ URL template,
`http://\x7bs\x7d.tile.test/\x7bz\x7d/\x7bx\x7d/\x7by\x7d.png`. -/
def stdTmpl : List Segment :=
  [Segment.lit "http://", Segment.hole "s", Segment.lit ".tile.test/",
   Segment.hole "z", Segment.lit "/", Segment.hole "x", Segment.lit "/",
   Segment.hole "y", Segment.lit ".png"]

/-- A transfer oracle whose first two attempts fail and whose third
succeeds. -/
def failTwice : Nat → Option String :=
  fun i => if i < 2 then none else some "TILE"

/-- A transfer oracle that always fails. -/
def alwaysFail : Nat → Option String := fun _ => none

/-! ## Helper lemmas -/

lemma dictSet_nil {β : Type} (k : String) (v : β) :
    dictSet ([] : List (String × β)) k v = [(k, v)] := rfl

lemma dictSet_cons {β : Type} (k' : String) (v' : β) (rest : List (String × β))
    (k : String) (v : β) :
    dictSet ((k', v') :: rest) k v =
      if k' = k then (k, v) :: rest else (k', v') :: dictSet rest k v := rfl

lemma dictGet_nil {β : Type} (k : String) :
    dictGet ([] : List (String × β)) k = none := rfl

lemma dictGet_cons {β : Type} (k' : String) (v' : β) (rest : List (String × β))
    (k : String) :
    dictGet ((k', v') :: rest) k =
      if k' = k then some v' else dictGet rest k := rfl

lemma dictGet_dictSet_self {β : Type} (l : List (String × β)) (k : String) (v : β) :
    dictGet (dictSet l k v) k = some v := by
  induction l with
  | nil => simp [dictSet_nil, dictGet_cons]
  | cons p rest ih =>
      obtain ⟨k', v'⟩ := p
      rw [dictSet_cons]
      by_cases h : k' = k
      · rw [if_pos h, dictGet_cons, if_pos rfl]
      · rw [if_neg h, dictGet_cons, if_neg h]
        exact ih

lemma dictGet_dictSet_ne {β : Type} (l : List (String × β)) (k k' : String) (v : β)
    (h : k' ≠ k) : dictGet (dictSet l k v) k' = dictGet l k' := by
  induction l with
  | nil =>
      rw [dictSet_nil, dictGet_cons, dictGet_nil, if_neg (fun hk => h hk.symm)]
  | cons p rest ih =>
      obtain ⟨k₀, v₀⟩ := p
      rw [dictSet_cons]
      by_cases h0 : k₀ = k
      · rw [if_pos h0, dictGet_cons, dictGet_cons, if_neg (fun hk => h hk.symm),
            if_neg (by rw [h0]; exact fun hk => h hk.symm)]
      · rw [if_neg h0, dictGet_cons, dictGet_cons]
        by_cases h1 : k₀ = k'
        · rw [if_pos h1, if_pos h1]
        · rw [if_neg h1, if_neg h1]
          exact ih

lemma dictSet_of_not_mem {β : Type} (l : List (String × β)) (k : String) (v : β)
    (h : k ∉ l.map Prod.fst) : dictSet l k v = l ++ [(k, v)] := by
  induction l with
  | nil => rfl
  | cons p rest ih =>
      obtain ⟨k', v'⟩ := p
      simp only [List.map_cons, List.mem_cons] at h
      push_neg at h
      rw [dictSet_cons, if_neg (fun hk => h.1 hk.symm)]
      rw [ih h.2, List.cons_append]

lemma foldl_dictSet_append :
    ∀ (rs acc : List (String × Json)),
      (∀ k, k ∈ rs.map Prod.fst → k ∉ acc.map Prod.fst) →
      (rs.map Prod.fst).Nodup →
      rs.foldl (fun a kv => dictSet a kv.1 kv.2) acc = acc ++ rs
  | [], acc, _, _ => by simp
  | (k, v) :: rs, acc, hdisj, hnd => by
      simp only [List.map_cons, List.nodup_cons] at hnd
      have hk : k ∉ acc.map Prod.fst := hdisj k (by simp)
      rw [List.foldl_cons, dictSet_of_not_mem acc k v hk]
      have hdisj' : ∀ k', k' ∈ rs.map Prod.fst →
          k' ∉ (acc ++ [(k, v)]).map Prod.fst := by
        intro k' hk'
        simp only [List.map_append, List.mem_append, List.map_cons,
          List.map_nil, List.mem_singleton]
        push_neg
        exact ⟨hdisj k' (by simp [hk']), fun hkk => hnd.1 (hkk ▸ hk')⟩
      rw [foldl_dictSet_append rs (acc ++ [(k, v)]) hdisj' hnd.2]
      simp

lemma assembleData_nodup (rs : List (String × Json))
    (h : (rs.map Prod.fst).Nodup) : assembleData rs = rs := by
  unfold assembleData
  rw [foldl_dictSet_append rs [] (by simp) h]
  simp

lemma scanRun_nil (p : Int × Int) : scanRun p [] = p := rfl

lemma scanRun_cons (p t : Int × Int) (rest : List (Int × Int)) :
    scanRun p (t :: rest) = if t.1 - p.1 ≤ 1 then scanRun t rest else p := rfl

lemma scanRun_cons_self (p : Int × Int) (rest : List (Int × Int)) :
    scanRun p (p :: rest) = scanRun p rest := by
  rw [scanRun_cons, if_pos (by omega)]

lemma scanRun_spec :
    ∀ (rest : List (Int × Int)) (p : Int × Int),
      ∃ pre suf, rest = pre ++ suf ∧
        List.Chain' (fun a b : Int × Int => b.1 - a.1 ≤ 1) (p :: pre) ∧
        scanRun p rest = (p :: pre).getLastD p ∧
        ∀ q, suf.head? = some q → q.1 - (scanRun p rest).1 > 1
  | [], p =>
      ⟨[], [], rfl, List.chain'_singleton p, rfl, by intro q hq; simp at hq⟩
  | t :: rest, p => by
      by_cases h : t.1 - p.1 ≤ 1
      · obtain ⟨pre, suf, hsplit, hchain, he, hmax⟩ := scanRun_spec rest t
        refine ⟨t :: pre, suf, by rw [hsplit]; rfl, ?_, ?_, ?_⟩
        · exact List.chain'_cons.mpr ⟨h, hchain⟩
        · rw [scanRun_cons, if_pos h, he]
          simp only [List.getLastD_cons]
        · intro q hq
          rw [scanRun_cons, if_pos h]
          exact hmax q hq
      · refine ⟨[], t :: rest, rfl, List.chain'_singleton p, ?_, ?_⟩
        · rw [scanRun_cons, if_neg h]
          rfl
        · intro q hq
          rw [scanRun_cons, if_neg h]
          simp only [List.head?_cons, Option.some.injEq] at hq
          subst hq
          omega

lemma downloadAttempt_first (attempt : Nat → Option String) :
    ∀ (k r i : Nat) (b : String), k < r →
      (∀ j, j < k → attempt (i + j) = none) →
      attempt (i + k) = some b →
      downloadAttempt attempt r i = some b ∧ attemptsMade attempt r i = k + 1
  | 0, 0, _, _, hr, _, _ => by omega
  | 0, r + 1, i, b, _, _, hs => by
      have hs' : attempt i = some b := by simpa using hs
      exact ⟨by simp [downloadAttempt, hs'], by simp [attemptsMade, hs']⟩
  | k + 1, 0, _, _, hr, _, _ => by omega
  | k + 1, r + 1, i, b, hr, hnone, hs => by
      have h0 : attempt i = none := by simpa using hnone 0 (by omega)
      have ih := downloadAttempt_first attempt k r (i + 1) b (by omega)
        (fun j hj => by
          have := hnone (j + 1) (by omega)
          rwa [show i + (j + 1) = i + 1 + j by omega] at this)
        (by rwa [show i + (k + 1) = i + 1 + k by omega] at hs)
      exact ⟨by simp only [downloadAttempt, h0]; exact ih.1,
             by simp only [attemptsMade, h0]; omega⟩

lemma downloadAttempt_exhaust (attempt : Nat → Option String) :
    ∀ (r i : Nat), (∀ j, j < r → attempt (i + j) = none) →
      downloadAttempt attempt r i = none ∧ attemptsMade attempt r i = r
  | 0, i, _ => ⟨rfl, rfl⟩
  | r + 1, i, hnone => by
      have h0 : attempt i = none := by simpa using hnone 0 (by omega)
      have ih := downloadAttempt_exhaust attempt r (i + 1)
        (fun j hj => by
          have := hnone (j + 1) (by omega)
          rwa [show i + (j + 1) = i + 1 + j by omega] at this)
      exact ⟨by simp only [downloadAttempt, h0]; exact ih.1,
             by simp only [attemptsMade, h0]; omega⟩

lemma attemptsMade_le (attempt : Nat → Option String) :
    ∀ (r i : Nat), attemptsMade attempt r i ≤ r
  | 0, _ => Nat.le_refl 0
  | r + 1, i => by
      cases h : attempt i with
      | some b => simp [attemptsMade, h]
      | none =>
          have := attemptsMade_le attempt r (i + 1)
          simp only [attemptsMade, h]
          omega

lemma pyFormat_missing (env : List (String × String)) :
    ∀ (t : List Segment),
      (∃ n, Segment.hole n ∈ t ∧ dictGet env n = none) →
      ∃ m, pyFormat env t = Except.error m ∧ dictGet env m = none
  | [], h => by
      obtain ⟨n, hn, _⟩ := h
      simp at hn
  | Segment.lit s :: rest, h => by
      obtain ⟨n, hn, hg⟩ := h
      have hn' : Segment.hole n ∈ rest := by
        rcases List.mem_cons.mp hn with h1 | h1
        · exact absurd h1 (by simp)
        · exact h1
      obtain ⟨m, hm, hmg⟩ := pyFormat_missing env rest ⟨n, hn', hg⟩
      exact ⟨m, by simp only [pyFormat, hm], hmg⟩
  | Segment.hole n' :: rest, h => by
      cases hg' : dictGet env n' with
      | none => exact ⟨n', by simp only [pyFormat, hg'], hg'⟩
      | some v =>
          obtain ⟨n, hn, hg⟩ := h
          have hn' : Segment.hole n ∈ rest := by
            rcases List.mem_cons.mp hn with h1 | h1
            · have : n = n' := by injection h1
              rw [this, hg'] at hg
              exact absurd hg (by simp)
            · exact h1
          obtain ⟨m, hm, hmg⟩ := pyFormat_missing env rest ⟨n, hn', hg⟩
          exact ⟨m, by simp only [pyFormat, hg', hm], hmg⟩

/-! ## Claim theorems -/

/-- C1: for every zoom `z >= 0` and every row `0 <= y < 2^z`, applying the
requested-to-stored row conversion `stored_row = (2^z - 1) - y` (the
`y_mercator` computation used by `MBTilesReader.tile` and
`MBTilesReader.grid`) twice yields the original row: the conversion is its
own inverse. -/
theorem y_mercator_involution (z : Nat) (y : Int) (h0 : 0 ≤ y)
    (h1 : y < 2 ^ z) : y_mercator z (y_mercator z y) = y := by
  unfold y_mercator
  ring

theorem y_mercator_involution_witness :
    (0 : Int) ≤ 5 ∧ (5 : Int) < 2 ^ 3 ∧ y_mercator 3 (y_mercator 3 5) = 5 :=
  ⟨by decide, by decide, y_mercator_involution 3 5 (by decide) (by decide)⟩

/-- C2: `MBTilesReader.tile` converts the requested row `y` to the stored
convention and looks up the exact `(z, x, (2^z - 1) - y)` key: a missing
row raises `ExtractionError` with the sink untouched; a found row writes
the stored blob verbatim to the sink; consequently a tile stored at
`(z, x, stored_row)` is retrieved by requesting `y = (2^z - 1) -
stored_row`. -/
theorem MBTilesReader_tile_roundtrip (db : MBTiles) (z : Nat)
    (x y sr : Int) (blob : String) :
    (lookupTiles db z x (y_mercator z y) = none →
      MBTilesReader_tile db z x y =
        (Except.error PyError.extraction, Sink.untouched)) ∧
    (lookupTiles db z x (y_mercator z y) = some blob →
      MBTilesReader_tile db z x y = (Except.ok (), Sink.written blob)) ∧
    (lookupTiles db z x sr = some blob →
      MBTilesReader_tile db z x ((2 ^ z - 1 : Int) - sr) =
        (Except.ok (), Sink.written blob)) := by
  refine ⟨?_, ?_, ?_⟩
  · intro h
    unfold MBTilesReader_tile
    rw [h]
  · intro h
    unfold MBTilesReader_tile
    rw [h]
  · intro h
    unfold MBTilesReader_tile
    have hy : y_mercator z ((2 ^ z - 1 : Int) - sr) = sr := by
      unfold y_mercator; ring
    rw [hy, h]

theorem MBTilesReader_tile_roundtrip_witness :
    lookupTiles roundDb 1 0 1 = some "BLOB" ∧
    MBTilesReader_tile roundDb 1 0 ((2 ^ 1 - 1 : Int) - 1) =
      (Except.ok (), Sink.written "BLOB") :=
  ⟨by decide, (MBTilesReader_tile_roundtrip roundDb 1 0 0 1 "BLOB").2.2 (by decide)⟩

/-- C3 (amended): for a coordinate whose converted address has a `grids`
record `g`, and whose `grid_data` rows `rs` carry pairwise-distinct feature
keys, `MBTilesReader.grid` returns exactly
`callback(json-of(g with data set to exactly the rows rs));` — one `data`
entry per `grid_data` row, each key mapped to its parsed fragment, nothing
else — with callback name defaulting to `grid`.  (With duplicate keys,
later rows overwrite earlier ones, so the per-row count of the original
claim fails; see the counterexample.) -/
theorem MBTilesReader_grid_assembly (db : MBTiles) (z : Nat) (x y : Int)
    (callback : Option String) (g rs : List (String × Json))
    (hg : lookupGrids db z x (y_mercator z y) = some g)
    (hr : gridDataRows db z x (y_mercator z y) = rs)
    (hnd : (rs.map Prod.fst).Nodup) :
    MBTilesReader_grid db z x y callback =
      Except.ok (cbName callback ++ "(" ++
        dumps (Json.obj (dictSet g "data" (Json.obj rs))) ++ ");") ∧
    cbName none = "grid" := by
  constructor
  · simp only [MBTilesReader_grid, hg, hr]
    rw [assembleData_nodup rs hnd]
  · rfl

theorem MBTilesReader_grid_assembly_witness :
    MBTilesReader_grid gridDb 1 0 0 none =
      Except.ok (cbName none ++ "(" ++
        dumps (Json.obj (dictSet [("keys", Json.arr [Json.str "a"])] "data"
          (Json.obj [("a", Json.num 1), ("b", Json.num 2)]))) ++ ");") ∧
    cbName none = "grid" :=
  MBTilesReader_grid_assembly gridDb 1 0 0 none
    [("keys", Json.arr [Json.str "a"])]
    [("a", Json.num 1), ("b", Json.num 2)] rfl rfl (by decide)

/-- C3 counterexample: with two `grid_data` rows sharing the feature key
`"a"` at the same coordinate, the assembled `data` map holds one entry for
the two rows (the later fragment wins), so the map does not contain "one
entry per grid_data row"; the full grid document shows only
`"a": 2`. -/
theorem grid_duplicate_key_cex :
    (gridDataRows dupGridDb 1 0 1).length = 2 ∧
    (assembleData (gridDataRows dupGridDb 1 0 1)).length = 1 ∧
    MBTilesReader_grid dupGridDb 1 0 0 none =
      Except.ok ("grid(" ++
        dumps (Json.obj [("data", Json.obj [("a", Json.num 2)])]) ++ ");") :=
  ⟨by decide, by decide, rfl⟩

/-- C4: when the converted coordinate has no `grids` row,
`MBTilesReader.grid` raises `ExtractionError` — for every archive,
including archives holding `grid_data` fragments at that very
coordinate. -/
theorem MBTilesReader_grid_missing_header (db : MBTiles) (z : Nat)
    (x y : Int) (callback : Option String)
    (h : lookupGrids db z x (y_mercator z y) = none) :
    MBTilesReader_grid db z x y callback = Except.error PyError.extraction := by
  simp only [MBTilesReader_grid, h]

theorem MBTilesReader_grid_missing_header_witness :
    (gridDataRows noHeaderDb 1 0 1).length = 1 ∧
    MBTilesReader_grid noHeaderDb 1 0 0 none = Except.error PyError.extraction :=
  ⟨by decide, MBTilesReader_grid_missing_header noHeaderDb 1 0 0 none rfl⟩

/-- C5: on a zoom level with at least one stored tile,
`MBTilesReader.find_coverage` works on the `(column, row)` pairs sorted
ascending by column then row; it seeds `xmin`/`ymin` from the first pair
`p`, extends the run through a prefix `pre` of the remaining pairs along
which each next pair's column differs from the previous pair's by at most
1 (rows are never compared), stops exactly when the next pair's column
jumps by more than 1, takes `xmax`/`ymax` from the run's last pair `e`,
and returns the concatenation of the pixel-to-geographic conversions of
`(xmin*S, (ymax+1)*S)` and `((xmax+1)*S, ymin*S)`. -/
theorem find_coverage_scan {α : Type} (db : MBTiles) (zoom : Nat) (S : Int)
    (u : Int → Int → List α) (p : Int × Int) (rest : List (Int × Int))
    (h : coveragePairs db zoom = p :: rest) :
    List.Sorted pairLE (coveragePairs db zoom) ∧
    List.Perm (coveragePairs db zoom) (pairsAtZoom db zoom) ∧
    ∃ pre suf e, rest = pre ++ suf ∧
      List.Chain' (fun a b : Int × Int => b.1 - a.1 ≤ 1) (p :: pre) ∧
      (p :: pre).getLastD p = e ∧
      (∀ q, suf.head? = some q → q.1 - e.1 > 1) ∧
      MBTilesReader_find_coverage db zoom S u =
        Except.ok (u (p.1 * S) ((e.2 + 1) * S) ++
                   u ((e.1 + 1) * S) (p.2 * S)) := by
  refine ⟨List.sorted_insertionSort pairLE (pairsAtZoom db zoom),
          List.perm_insertionSort pairLE (pairsAtZoom db zoom), ?_⟩
  obtain ⟨pre, suf, hsplit, hchain, he, hmax⟩ := scanRun_spec rest p
  refine ⟨pre, suf, scanRun p rest, hsplit, hchain, he.symm, hmax, ?_⟩
  simp only [MBTilesReader_find_coverage, h, scanRun_cons_self]

theorem find_coverage_scan_witness :
    List.Sorted pairLE (coveragePairs covDb 1) ∧
    List.Perm (coveragePairs covDb 1) (pairsAtZoom covDb 1) ∧
    ∃ pre suf e,
      ([((1 : Int), (0 : Int)), (1, 1)] : List (Int × Int)) = pre ++ suf ∧
      List.Chain' (fun a b : Int × Int => b.1 - a.1 ≤ 1)
        (((0 : Int), (0 : Int)) :: pre) ∧
      (((0 : Int), (0 : Int)) :: pre).getLastD (0, 0) = e ∧
      (∀ q, suf.head? = some q → q.1 - e.1 > 1) ∧
      MBTilesReader_find_coverage covDb 1 256 (fun a b => [a, b]) =
        Except.ok ([(0 : Int) * 256, (e.2 + 1) * 256] ++
                   [(e.1 + 1) * 256, (0 : Int) * 256]) :=
  find_coverage_scan covDb 1 256 (fun a b => [a, b]) (0, 0) [(1, 0), (1, 1)]
    (by decide)

/-- C6: on a zoom level with no stored tiles the first `fetchone()` of
`find_coverage` yields `None`, and the unpacking `xmin, ymin = t` raises a
Python `TypeError` — not the `ExtractionError` the specification
prescribes for a coverage that cannot be located. -/
theorem find_coverage_empty_typeError :
    MBTilesReader_find_coverage emptyDb 3 256 (fun a b => [(a : Int), b]) =
      Except.error PyError.typeError ∧
    PyError.typeError ≠ PyError.extraction :=
  ⟨rfl, by decide⟩

/-- C7: once the URL template resolves, `TileDownloader.tile` with retry
budget `R` makes at most `R` transfer attempts; if the first `i` attempts
fail and attempt `i` (for `i < R`, in particular `i = R - 1`) succeeds it
returns that attempt's tile immediately after `i + 1` attempts; if all `R`
attempts fail it raises `DownloadError` in its retry-exhausted form. -/
theorem TileDownloader_tile_retry (tmpl : List Segment) (subs : List String)
    (tsize : Int) (R : Nat) (attempt : Nat → Option String)
    (selfRepr output : String) (z x y : Int) (u : String)
    (hfmt : pyFormat (tileLocals subs tsize selfRepr output z x y) tmpl =
      Except.ok u) :
    (∀ i b, i < R → (∀ j, j < i → attempt j = none) → attempt i = some b →
      TileDownloader_tile tmpl subs tsize R attempt selfRepr output z x y =
        Except.ok b ∧
      attemptsMade attempt R 0 = i + 1) ∧
    ((∀ i, i < R → attempt i = none) →
      TileDownloader_tile tmpl subs tsize R attempt selfRepr output z x y =
        Except.error (PyError.download DownloadKind.exhausted) ∧
      attemptsMade attempt R 0 = R) ∧
    attemptsMade attempt R 0 ≤ R := by
  refine ⟨?_, ?_, attemptsMade_le attempt R 0⟩
  · intro i b hi hnone hs
    have hfirst := downloadAttempt_first attempt i R 0 b hi
      (fun j hj => by simpa using hnone j hj) (by simpa using hs)
    constructor
    · simp only [TileDownloader_tile, hfmt, hfirst.1]
    · exact hfirst.2
  · intro hall
    have hex := downloadAttempt_exhaust attempt R 0
      (fun j hj => by simpa using hall j hj)
    constructor
    · simp only [TileDownloader_tile, hfmt, hex.1]
    · exact hex.2

theorem TileDownloader_tile_retry_witness :
    TileDownloader_tile stdTmpl ["a", "b"] 256 3 failTwice "rdr" "out.png"
        2 3 1 = Except.ok "TILE" ∧
    attemptsMade failTwice 3 0 = 3 ∧
    TileDownloader_tile stdTmpl ["a", "b"] 256 3 alwaysFail "rdr" "out.png"
        2 3 1 = Except.error (PyError.download DownloadKind.exhausted) ∧
    attemptsMade alwaysFail 3 0 = 3 := by
  have h1 := (TileDownloader_tile_retry stdTmpl ["a", "b"] 256 3 failTwice
    "rdr" "out.png" 2 3 1 "http://a.tile.test/2/3/1.png" rfl).1 2 "TILE"
    (by omega) (fun j hj => by unfold failTwice; rw [if_pos hj]) (by decide)
  have h2 := (TileDownloader_tile_retry stdTmpl ["a", "b"] 256 3 alwaysFail
    "rdr" "out.png" 2 3 1 "http://a.tile.test/2/3/1.png" rfl).2.1
    (fun i _ => rfl)
  exact ⟨h1.1, h1.2, h2.1, h2.2⟩

/-- C8 (amended): the archive reader's sink is untouched on any failure
and holds exactly the stored blob on success; the WMS requester's sink is
untouched when the request itself fails or the declared content type
mismatches the configured format, and holds the full body on success —
but a transfer failure while reading the response body occurs after
`open(output, 'wb')` has already truncated the sink, leaving it written
empty rather than untouched (the failure case the original claim
excludes; the remote downloader hands the sink directly to the external
`retrieve`, so no untouched-on-failure guarantee exists there either). -/
theorem sink_atomicity_amended (db : MBTiles) (z : Nat) (x y : Int)
    (params : List (String × String))
    (resp : Except Unit (String × Except Unit String)) :
    (∀ e, (MBTilesReader_tile db z x y).1 = Except.error e →
      (MBTilesReader_tile db z x y).2 = Sink.untouched) ∧
    ((MBTilesReader_tile db z x y).1 = Except.ok () →
      ∃ blob, lookupTiles db z x (y_mercator z y) = some blob ∧
        (MBTilesReader_tile db z x y).2 = Sink.written blob) ∧
    (resp = Except.error () →
      WMSReader_tile params resp =
        (Except.error PyError.extraction, Sink.untouched)) ∧
    (∀ hd b, resp = Except.ok (hd, b) →
      hd ≠ (dictGet params "format").getD "" →
      WMSReader_tile params resp =
        (Except.error PyError.extraction, Sink.untouched)) ∧
    (∀ hd, resp = Except.ok (hd, Except.error ()) →
      hd = (dictGet params "format").getD "" →
      WMSReader_tile params resp =
        (Except.error PyError.extraction, Sink.written "")) ∧
    (∀ hd c, resp = Except.ok (hd, Except.ok c) →
      hd = (dictGet params "format").getD "" →
      WMSReader_tile params resp = (Except.ok (), Sink.written c)) := by
  refine ⟨?_, ?_, ?_, ?_, ?_, ?_⟩
  · intro e he
    unfold MBTilesReader_tile at he ⊢
    cases hl : lookupTiles db z x (y_mercator z y) with
    | none => rfl
    | some t =>
        rw [hl] at he
        exact absurd he (by simp)
  · intro hok
    unfold MBTilesReader_tile at hok ⊢
    cases hl : lookupTiles db z x (y_mercator z y) with
    | none =>
        rw [hl] at hok
        exact absurd hok (by simp)
    | some t => exact ⟨t, rfl, rfl⟩
  · intro hr
    subst hr
    rfl
  · intro hd b hr hne
    subst hr
    simp only [WMSReader_tile]
    rw [if_neg hne]
  · intro hd hr heq
    subst hr
    simp only [WMSReader_tile]
    rw [if_pos heq]
  · intro hd c hr heq
    subst hr
    simp only [WMSReader_tile]
    rw [if_pos heq]

theorem sink_atomicity_amended_witness :
    (MBTilesReader_tile emptyDb 1 0 0).2 = Sink.untouched ∧
    WMSReader_tile [("format", "image/jpeg")] (Except.error ()) =
      (Except.error PyError.extraction, Sink.untouched) ∧
    WMSReader_tile [("format", "image/jpeg")]
        (Except.ok ("text/html", Except.ok "oops")) =
      (Except.error PyError.extraction, Sink.untouched) ∧
    WMSReader_tile [("format", "image/jpeg")]
        (Except.ok ("image/jpeg", Except.ok "IMG")) =
      (Except.ok (), Sink.written "IMG") :=
  ⟨(sink_atomicity_amended emptyDb 1 0 0 [("format", "image/jpeg")]
      (Except.error ())).1 PyError.extraction rfl,
   (sink_atomicity_amended emptyDb 1 0 0 [("format", "image/jpeg")]
      (Except.error ())).2.2.1 rfl,
   (sink_atomicity_amended emptyDb 1 0 0 [("format", "image/jpeg")]
      (Except.ok ("text/html", Except.ok "oops"))).2.2.2.1 "text/html"
      (Except.ok "oops") rfl (by decide),
   (sink_atomicity_amended emptyDb 1 0 0 [("format", "image/jpeg")]
      (Except.ok ("image/jpeg", Except.ok "IMG"))).2.2.2.2.2 "image/jpeg"
      "IMG" rfl rfl⟩

/-- C8 counterexample: a WMS fetch whose response carries the right
content type but whose body read fails leaves the sink written-empty (the
source opens and truncates `output` before evaluating `f.read()`), so a
failing transfer does not leave the sink untouched as the claim
states. -/
theorem wms_sink_touched_cex :
    WMSReader_tile [("format", "image/jpeg")]
        (Except.ok ("image/jpeg", Except.error ())) =
      (Except.error PyError.extraction, Sink.written "") ∧
    Sink.written "" ≠ Sink.untouched :=
  ⟨rfl, by decide⟩

/-- C9 (amended): a URL template holding a named placeholder that is none
of the seven names in scope at the `format` call — `z`, `x`, `y`, `s`,
`size`, `self`, `output` (the source substitutes `locals()`, so the last
two resolve too) — makes `TileDownloader.tile` fail immediately with
`DownloadError` naming the first such unknown keyword, for every retry
budget and every transfer oracle: no transfer attempt is made and nothing
is retried. -/
theorem TileDownloader_tile_unknownKeyword (tmpl : List Segment)
    (subs : List String) (tsize : Int) (selfRepr output : String)
    (z x y : Int)
    (h : ∃ n, Segment.hole n ∈ tmpl ∧
      dictGet (tileLocals subs tsize selfRepr output z x y) n = none) :
    ∃ m, dictGet (tileLocals subs tsize selfRepr output z x y) m = none ∧
      ∀ R attempt,
        TileDownloader_tile tmpl subs tsize R attempt selfRepr output z x y =
          Except.error (PyError.download (DownloadKind.unknownKeyword m)) := by
  obtain ⟨m, hm, hmg⟩ :=
    pyFormat_missing (tileLocals subs tsize selfRepr output z x y) tmpl h
  refine ⟨m, hmg, ?_⟩
  intro R attempt
  simp only [TileDownloader_tile, hm]

theorem TileDownloader_tile_unknownKeyword_witness :
    ∃ m, dictGet (tileLocals ["a"] 256 "rdr" "out.png" 2 3 1) m = none ∧
      ∀ R attempt,
        TileDownloader_tile [Segment.lit "http://", Segment.hole "foo"]
            ["a"] 256 R attempt "rdr" "out.png" 2 3 1 =
          Except.error (PyError.download (DownloadKind.unknownKeyword m)) :=
  TileDownloader_tile_unknownKeyword
    [Segment.lit "http://", Segment.hole "foo"] ["a"] 256 "rdr" "out.png"
    2 3 1 ⟨"foo", by decide, by decide⟩

/-- C9 counterexample: `\x7boutput\x7d` is not one of the five documented
placeholders `z`, `x`, `y`, `s`, `size`, yet a template using it does not
fail with `DownloadError`: `locals()` at the `format` call also binds
`output` (and `self`), so the template resolves and the fetch proceeds to
the transfer and succeeds. -/
theorem unknown_placeholder_cex :
    ("output" ∉ (["z", "x", "y", "s", "size"] : List String)) ∧
    TileDownloader_tile [Segment.hole "output"] ["a"] 256 1
        (fun _ => some "T") "rdr" "out.png" 0 0 0 = Except.ok "T" :=
  ⟨by decide, rfl⟩

/-- C10: after `WMSReader.__init__` applies any caller overrides on top of
the defaults, the spatial-reference parameter is keyed `crs` when the
effective `version` compares at least `1.3` and `srs` otherwise, and in
both cases its value is the projector's coordinate-reference identifier —
overwriting any value the overrides supplied for that key. -/
theorem WMSReader_init_projection (layers : List String) (tsize : Int)
    (kwargs : List (String × String)) :
    (verGE13 ((dictGet (WMSReader_init layers tsize kwargs) "version").getD "") =
        true →
      dictGet (WMSReader_init layers tsize kwargs) "crs" =
        some GoogleProjection_NAME) ∧
    (verGE13 ((dictGet (WMSReader_init layers tsize kwargs) "version").getD "") =
        false →
      dictGet (WMSReader_init layers tsize kwargs) "srs" =
        some GoogleProjection_NAME) := by
  simp only [WMSReader_init]
  set p := List.foldl (fun acc kv => dictSet acc kv.1 kv.2)
    [("service", "WMS"), ("request", "GetMap"), ("version", "1.1.1"),
     ("styles", ""), ("format", "image/jpeg"), ("transparent", "False"),
     ("layers", String.intercalate "," layers),
     ("width", toString tsize), ("height", toString tsize)] kwargs with hp
  by_cases hv : verGE13 ((dictGet p "version").getD "") = true
  · rw [if_pos hv]
    have hver : dictGet (dictSet p "crs" GoogleProjection_NAME) "version" =
        dictGet p "version" :=
      dictGet_dictSet_ne p "crs" "version" GoogleProjection_NAME (by decide)
    constructor
    · intro _
      exact dictGet_dictSet_self p "crs" GoogleProjection_NAME
    · intro hfalse
      rw [hver, hv] at hfalse
      exact Bool.noConfusion hfalse
  · rw [if_neg hv]
    have hver : dictGet (dictSet p "srs" GoogleProjection_NAME) "version" =
        dictGet p "version" :=
      dictGet_dictSet_ne p "srs" "version" GoogleProjection_NAME (by decide)
    constructor
    · intro htrue
      rw [hver] at htrue
      exact absurd htrue hv
    · intro _
      exact dictGet_dictSet_self p "srs" GoogleProjection_NAME

theorem WMSReader_init_projection_witness :
    dictGet (WMSReader_init ["lyr"] 256 []) "srs" =
      some GoogleProjection_NAME ∧
    dictGet (WMSReader_init ["lyr"] 256
        [("version", "1.3.0"), ("crs", "bogus")]) "crs" =
      some GoogleProjection_NAME :=
  ⟨(WMSReader_init_projection ["lyr"] 256 []).2 (by decide),
   (WMSReader_init_projection ["lyr"] 256
      [("version", "1.3.0"), ("crs", "bogus")]).1 (by decide)⟩
